import Mathlib

/-
Shallow embedding of the client-side authentication layer of the
HealthCare-frontend-web repository: the form-validation schemas
(src/unnamed/part_000, a zod schema module) and the session/auth
orchestrator hook `useAuth` (src/src/app/layout.tsx), together with the
pure redirect resolver `getRedirectPath`.

JavaScript-specific semantics (string truthiness, `||` defaulting,
`String.prototype.includes`, UTF-16 `length`) are embedded explicitly by
the `js*` helper functions below.
-/

namespace HealthAuth

/-- Closed role enumeration. Modelled from the spec: the `Role` enum of
`@/types/auth.types` is not part of the sources; the spec fixes its members
as SUPER_ADMIN, CLINIC_ADMIN, DOCTOR, RECEPTIONIST, PATIENT. -/
inductive Role where
  | SUPER_ADMIN
  | CLINIC_ADMIN
  | DOCTOR
  | RECEPTIONIST
  | PATIENT
deriving DecidableEq, Repr

/-- Runtime string value of a `Role` member. Modelled from the spec: the
string-valued TS enum of `auth.types` is absent from the sources; the spec
describes a closed string enumeration, so each member carries its name. -/
def Role.toStr : Role → String
  | .SUPER_ADMIN => "SUPER_ADMIN"
  | .CLINIC_ADMIN => "CLINIC_ADMIN"
  | .DOCTOR => "DOCTOR"
  | .RECEPTIONIST => "RECEPTIONIST"
  | .PATIENT => "PATIENT"

/-- JavaScript `String.prototype.includes`: substring containment. -/
def jsIncludes (s sub : String) : Bool :=
  decide (sub.toList <:+: s.toList)

/-- JavaScript truthiness of a possibly-absent string: `undefined`/`null`
and the empty string are falsy. -/
def jsTruthy : Option String → Bool
  | none => false
  | some s => s ≠ ""

/-- JavaScript `a || b` where `a` is a string: the empty string falls back. -/
def jsOrStr (a b : String) : String :=
  if a = "" then b else a

/-- JavaScript `a || b` where `a` is a possibly-absent string. -/
def jsOrOpt (a : Option String) (b : String) : String :=
  match a with
  | none => b
  | some s => jsOrStr s b

/-- JavaScript `a || null` where `a` is a possibly-absent string. -/
def jsOrNull (a : Option String) : Option String :=
  match a with
  | none => none
  | some s => if s = "" then none else some s

/-- UTF-16 length of a string, as JavaScript `String.prototype.length`
counts it: characters beyond the basic multilingual plane count twice. -/
def utf16Length (s : String) : Nat :=
  s.toList.foldl (fun n c => n + (if c.toNat ≥ 0x10000 then 2 else 1)) 0

/-- Login path constant used as the resolver default (layout.tsx line 80). -/
def loginPath : String := "/auth/login"

/-- Role-or-login branch of `getRedirectPath` (layout.tsx lines 77-80):
`user?.role` present gives the role dashboard, otherwise the login path.
The dashboard mapping `dash` abstracts `getDashboardByRole` of
`@/config/routes`, which is external to the sources; the theorems hold for
every mapping. A user is `Option (Option Role)`: `none` is `null`/
`undefined`, `some none` a user object without a role. -/
def roleOrLogin (dash : Role → String) (user : Option (Option Role)) : String :=
  match user with
  | some (some r) => dash r
  | _ => loginPath

/-- Redirect resolver, layout.tsx lines 73-81: an explicit redirect that is
truthy and does not contain the substring "/auth/" is returned unchanged;
otherwise the role dashboard or the login path. -/
def getRedirectPath (dash : Role → String) (user : Option (Option Role))
    (redirectUrl : Option String) : String :=
  match redirectUrl with
  | some url =>
      if url ≠ "" && !(jsIncludes url "/auth/") then url
      else roleOrLogin dash user
  | none => roleOrLogin dash user

/-- Sample dashboard mapping used only to instantiate witnesses. Modelled
from the spec: `@/config/routes` is absent from the sources; the spec only
requires a Role-indexed dashboard path mapping. -/
def sampleDash (r : Role) : String :=
  "/dashboard/" ++ r.toStr

/-- Validation issue, as zod reports it: a field path and a message. -/
structure Issue where
  path : List String
  message : String
deriving DecidableEq, Repr

/-- Character class of the regex `[A-Z]`. -/
def isUpperChar (c : Char) : Bool := 'A' ≤ c && c ≤ 'Z'

/-- Character class of the regex `[a-z]`. -/
def isLowerChar (c : Char) : Bool := 'a' ≤ c && c ≤ 'z'

/-- Character class of the regex `[0-9]`. -/
def isDigitChar (c : Char) : Bool := '0' ≤ c && c ≤ '9'

/-- Character class of the regex `[^A-Za-z0-9]`. -/
def isSpecialChar (c : Char) : Bool :=
  !(isUpperChar c || isLowerChar c || isDigitChar c)

/-- Test of the regex `/[A-Z]/` against a string. -/
def hasUpper (s : String) : Bool := s.toList.any isUpperChar

/-- Test of the regex `/[a-z]/` against a string. -/
def hasLower (s : String) : Bool := s.toList.any isLowerChar

/-- Test of the regex `/[0-9]/` against a string. -/
def hasDigit (s : String) : Bool := s.toList.any isDigitChar

/-- Test of the regex `/[^A-Za-z0-9]/` against a string. -/
def hasSpecial (s : String) : Bool := s.toList.any isSpecialChar

/-- Message of the min-8 check of the strong-password chain. -/
def minLenMsg : String := "Password must be at least 8 characters"

/-- Message of the uppercase regex check. -/
def upperMsg : String := "Password must contain at least one uppercase letter"

/-- Message of the lowercase regex check. -/
def lowerMsg : String := "Password must contain at least one lowercase letter"

/-- Message of the digit regex check. -/
def digitMsg : String := "Password must contain at least one number"

/-- Message of the special-character regex check. -/
def specialMsg : String := "Password must contain at least one special character"

/-- Strong-password check chain of part_000 (registration `password`,
lines 37-46, and change-password `newPassword`, lines 81-90):
`z.string().min(8).regex(/[A-Z]/).regex(/[a-z]/).regex(/[0-9]/)
.regex(/[^A-Za-z0-9]/)`. zod runs every string check and collects all
failing ones, in chain order, at the field `field`. -/
def strongPasswordIssues (field : String) (s : String) : List Issue :=
  (if utf16Length s < 8 then [⟨[field], minLenMsg⟩] else []) ++
  (if hasUpper s then [] else [⟨[field], upperMsg⟩]) ++
  (if hasLower s then [] else [⟨[field], lowerMsg⟩]) ++
  (if hasDigit s then [] else [⟨[field], digitMsg⟩]) ++
  (if hasSpecial s then [] else [⟨[field], specialMsg⟩])

/-- Acceptance of the strong-password chain: no issue raised. -/
def strongPasswordOk (s : String) : Bool :=
  strongPasswordIssues "password" s = ([] : List Issue)

/-- Raw field bag submitted to `registerSchema` (part_000 lines 34-61).
Optional fields model form fields that may be omitted; `gender` and `role`
arrive as raw strings that the `z.enum` checks restrict. -/
structure RegisterInput where
  email : String
  password : String
  confirmPassword : String
  firstName : String
  lastName : String
  phone : String
  gender : Option String
  role : Option String
  age : Option Int
  terms : Option Bool
deriving DecidableEq, Repr

/-- Gender values accepted by `z.enum(["MALE", "FEMALE", "OTHER"])`. -/
def genderValues : List String := ["MALE", "FEMALE", "OTHER"]

/-- Role strings accepted by `createRoleEnum()` (part_000 lines 24-32). -/
def roleValues : List String :=
  [Role.SUPER_ADMIN.toStr, Role.CLINIC_ADMIN.toStr, Role.DOCTOR.toStr,
   Role.RECEPTIONIST.toStr, Role.PATIENT.toStr]

/-- Issues of the base object of `registerSchema` (before the `.refine`),
collected in field-declaration order. `emailOk` abstracts the email grammar
of `z.string().email`, a library internal the spec leaves out of scope. -/
def registerBaseIssues (emailOk : String → Bool) (i : RegisterInput) : List Issue :=
  (if emailOk i.email then [] else [⟨["email"], "Please enter a valid email address"⟩]) ++
  strongPasswordIssues "password" i.password ++
  (if utf16Length i.firstName < 2 then [⟨["firstName"], "First name must be at least 2 characters"⟩] else []) ++
  (if utf16Length i.lastName < 2 then [⟨["lastName"], "Last name must be at least 2 characters"⟩] else []) ++
  (if utf16Length i.phone < 10 then [⟨["phone"], "Phone number must be at least 10 characters"⟩] else []) ++
  (match i.gender with
   | none => []
   | some g => if g ∈ genderValues then [] else [⟨["gender"], "Invalid enum value"⟩]) ++
  (match i.role with
   | none => []
   | some r => if r ∈ roleValues then [] else [⟨["role"], "Invalid enum value"⟩]) ++
  (match i.terms with
   | none => [⟨["terms"], "Required"⟩]
   | some b => if b = true then [] else [⟨["terms"], "You must accept the terms and conditions"⟩])

/-- Parsed output of `registerSchema`, with defaults applied. -/
structure RegisterOutput where
  email : String
  password : String
  confirmPassword : String
  firstName : String
  lastName : String
  phone : String
  gender : String
  role : String
  age : Int
  terms : Bool
deriving DecidableEq, Repr

/-- Message of the password-confirmation `.refine` of all three schemas. -/
def mismatchMsg : String := "Passwords don\x27t match"

/-- Mismatch issue attached to the `confirmPassword` field by the
`.refine` of the schemas, whose options set path to `["confirmPassword"]`. -/
def mismatchIssue : Issue := ⟨["confirmPassword"], mismatchMsg⟩

/-- Parse of `registerSchema` (part_000 lines 34-61): the base object is
validated first; only when it succeeds does the `.refine` comparing
`password` with `confirmPassword` run, attaching its issue to
`confirmPassword`. Defaults `MALE`, `Role.PATIENT`, `18` fill omitted
fields of the output. -/
def registerSafeParse (emailOk : String → Bool) (i : RegisterInput) :
    Except (List Issue) RegisterOutput :=
  let base := registerBaseIssues emailOk i
  if base = [] then
    if i.password = i.confirmPassword then
      .ok ⟨i.email, i.password, i.confirmPassword, i.firstName, i.lastName,
           i.phone, i.gender.getD "MALE", i.role.getD Role.PATIENT.toStr,
           i.age.getD 18, i.terms.getD true⟩
    else .error [mismatchIssue]
  else .error base

/-- Raw field bag submitted to `resetPasswordSchema` (part_000 lines 67-76). -/
structure ResetPasswordInput where
  password : String
  confirmPassword : String
  token : String
deriving DecidableEq, Repr

/-- Issues of the base object of `resetPasswordSchema`: only the plain
min-8 check on `password`; `confirmPassword` and `token` are unchecked. -/
def resetPasswordBaseIssues (i : ResetPasswordInput) : List Issue :=
  if utf16Length i.password < 8 then [⟨["password"], minLenMsg⟩] else []

/-- Parse of `resetPasswordSchema` (part_000 lines 67-76). -/
def resetPasswordSafeParse (i : ResetPasswordInput) :
    Except (List Issue) ResetPasswordInput :=
  let base := resetPasswordBaseIssues i
  if base = [] then
    if i.password = i.confirmPassword then .ok i
    else .error [mismatchIssue]
  else .error base

/-- Raw field bag submitted to `changePasswordSchema` (part_000 lines 78-96). -/
structure ChangePasswordInput where
  currentPassword : String
  newPassword : String
  confirmPassword : String
deriving DecidableEq, Repr

/-- Issues of the base object of `changePasswordSchema`: `currentPassword`
must be nonempty (`min(1)`), `newPassword` runs the strong chain. -/
def changePasswordBaseIssues (i : ChangePasswordInput) : List Issue :=
  (if utf16Length i.currentPassword < 1 then [⟨["currentPassword"], "Current password is required"⟩] else []) ++
  strongPasswordIssues "newPassword" i.newPassword

/-- Parse of `changePasswordSchema` (part_000 lines 78-96): the `.refine`
compares `newPassword` with `confirmPassword`. -/
def changePasswordSafeParse (i : ChangePasswordInput) :
    Except (List Issue) ChangePasswordInput :=
  let base := changePasswordBaseIssues i
  if base = [] then
    if i.newPassword = i.confirmPassword then .ok i
    else .error [mismatchIssue]
  else .error base

/-- Rejection test on a parse result. -/
def rejects {α : Type} (e : Except (List Issue) α) : Bool :=
  match e with
  | .ok _ => false
  | .error _ => true

/-- Kind of a toast notification. -/
inductive ToastKind where
  | success
  | error
deriving DecidableEq, Repr

/-- A toast notification shown to the user. -/
structure Toast where
  kind : ToastKind
  message : String
deriving DecidableEq, Repr

/-- User object of an `AuthResponse`, before the login normalization.
Optional fields model TS optional / nullable properties. -/
structure RawUser where
  id : String
  email : String
  name : Option String
  role : Role
  firstName : Option String
  lastName : Option String
  phone : Option String
  dateOfBirth : Option String
  gender : Option String
  address : Option String
  profileComplete : Option Bool
deriving DecidableEq, Repr

/-- User object after the defaulting spread of the login mutationFn
(layout.tsx lines 125-133). -/
structure NormalizedUser where
  id : String
  email : String
  name : Option String
  role : Role
  firstName : String
  lastName : String
  phone : String
  dateOfBirth : Option String
  gender : String
  address : String
  profileComplete : Option Bool
deriving DecidableEq, Repr

/-- Normalization of the login mutationFn: spread of `result.user` with
`firstName`, `lastName`, `phone`, `gender`, `address` defaulted to the
empty string by `||` and `dateOfBirth` defaulted to `null`. -/
def normalizeUser (u : RawUser) : NormalizedUser :=
  ⟨u.id, u.email, u.name, u.role,
   jsOrOpt u.firstName "", jsOrOpt u.lastName "", jsOrOpt u.phone "",
   jsOrNull u.dateOfBirth, jsOrOpt u.gender "", jsOrOpt u.address "",
   u.profileComplete⟩

/-- Result of a mutating auth action (`AuthResponse` of auth.types). -/
structure AuthResponse where
  user : Option RawUser
  token : Option String
  redirectUrl : Option String
  message : Option String
deriving DecidableEq, Repr

/-- Value produced by the login mutationFn: the response spread with the
normalized user (layout.tsx lines 135-138). -/
structure LoginResult where
  user : NormalizedUser
  token : Option String
  redirectUrl : Option String
  message : Option String
deriving DecidableEq, Repr

/-- User object of a `GoogleLoginResponse` (layout.tsx lines 83-95). -/
structure GoogleUser where
  id : String
  email : String
  name : Option String
  role : Role
  isNewUser : Option Bool
  googleId : Option String
  profileComplete : Option Bool
deriving DecidableEq, Repr

/-- Result of the Google login action (layout.tsx lines 83-95). -/
structure GoogleResponse where
  user : GoogleUser
  token : Option String
  redirectUrl : Option String
deriving DecidableEq, Repr

/-- Result of the request-OTP action: success flag plus message. -/
structure OTPRequestResult where
  success : Bool
  message : String
deriving DecidableEq, Repr

/-- Result of the check-OTP-status action. -/
structure OTPStatusResult where
  hasActiveOTP : Bool
deriving DecidableEq, Repr

/-- Message-only action result (invalidate-OTP, verify-email). -/
structure MessageResult where
  message : String
deriving DecidableEq, Repr

/-- Value returned by the logout mutationFn (an object with `success`). -/
structure LogoutResult where
  success : Bool
deriving DecidableEq, Repr

/-- Outcome of a remote action binding: a value, or a thrown error
carrying a human-readable message. -/
inductive RemoteResult (α : Type) where
  | ok (value : α)
  | err (message : String)
deriving DecidableEq, Repr

/-- Value stored in a query-cache entry. -/
inductive CacheValue where
  | jsNull
  | loginData (d : LoginResult)
  | other (tag : String)
deriving DecidableEq, Repr

/-- A query-cache entry: its data plus whether `invalidateQueries` marked
it stale since the data was last written. -/
structure CacheEntry where
  value : CacheValue
  stale : Bool
deriving DecidableEq, Repr

/-- Observable client state the orchestrator mutates: the query cache, the
router navigation history, and the toasts shown. -/
structure ClientState where
  cache : List (String × CacheEntry)
  nav : List String
  toasts : List Toast
deriving DecidableEq, Repr

/-- Key of the session query (`['session']`). -/
def sessionKey : String := "session"

/-- Replace the entry at a key, or append it when absent. -/
def setEntry (c : List (String × CacheEntry)) (k : String) (v : CacheEntry) :
    List (String × CacheEntry) :=
  match c with
  | [] => [(k, v)]
  | e :: rest => if e.1 = k then (k, v) :: rest else e :: setEntry rest k v

/-- Lookup of a cache entry by key. -/
def lookupEntry (c : List (String × CacheEntry)) (k : String) : Option CacheEntry :=
  match c with
  | [] => none
  | e :: rest => if e.1 = k then some e.2 else lookupEntry rest k

/-- Embedding of `queryClient.setQueryData(key, v)`: writes fresh data. -/
def setQueryData (s : ClientState) (k : String) (v : CacheValue) : ClientState :=
  { s with cache := setEntry s.cache k ⟨v, false⟩ }

/-- Embedding of `queryClient.invalidateQueries` on a key: marks matching
entries stale (to be refetched); values are untouched. -/
def invalidateQueries (s : ClientState) (k : String) : ClientState :=
  { s with cache := s.cache.map fun e => if e.1 = k then (e.1, ⟨e.2.value, true⟩) else e }

/-- Embedding of `queryClient.clear()`: removes every cache entry. -/
def clearCache (s : ClientState) : ClientState :=
  { s with cache := [] }

/-- Embedding of `router.push`: appends to the navigation history. -/
def push (s : ClientState) (p : String) : ClientState :=
  { s with nav := s.nav ++ [p] }

/-- Embedding of `toast.success`. -/
def toastSuccess (s : ClientState) (m : String) : ClientState :=
  { s with toasts := s.toasts ++ [⟨.success, m⟩] }

/-- Embedding of `toast.error`. -/
def toastError (s : ClientState) (m : String) : ClientState :=
  { s with toasts := s.toasts ++ [⟨.error, m⟩] }

/-- mutationFn of the login mutation (layout.tsx lines 114-139): a response
without a user becomes the thrown error "Invalid user data received";
otherwise the user is normalized and the response re-assembled. -/
def loginMutationFn (remote : RemoteResult AuthResponse) : RemoteResult LoginResult :=
  match remote with
  | .err m => .err m
  | .ok r =>
      match r.user with
      | none => .err "Invalid user data received"
      | some u => .ok ⟨normalizeUser u, r.token, r.redirectUrl, r.message⟩

/-- Welcome toast of the login onSuccess (layout.tsx line 146). -/
def welcomeBackMsg (firstName : String) : String :=
  "Welcome back" ++ (if firstName = "" then "" else ", " ++ firstName) ++ "!"

/-- Login mutation end to end (layout.tsx lines 113-152): mutationFn, then
onSuccess (cache write, role-dashboard navigation, welcome toast) or
onError (error toast with fallback). -/
def runLoginMutation (dash : Role → String) (remote : RemoteResult AuthResponse)
    (s : ClientState) : ClientState :=
  match loginMutationFn remote with
  | .ok d =>
      let s1 := setQueryData s sessionKey (.loginData d)
      let s2 := push s1 (dash d.user.role)
      toastSuccess s2 (welcomeBackMsg d.user.firstName)
  | .err m => toastError s (jsOrStr m "Login failed")

/-- Google login mutation (layout.tsx lines 154-169). -/
def runGoogleLoginMutation (dash : Role → String) (remote : RemoteResult GoogleResponse)
    (s : ClientState) : ClientState :=
  match remote with
  | .ok d =>
      let s1 := invalidateQueries s sessionKey
      let s2 := push s1 (getRedirectPath dash (some (some d.user.role)) d.redirectUrl)
      toastSuccess s2
        ("Welcome" ++ (if jsTruthy d.user.name then ", " ++ d.user.name.getD "" else "") ++ "!")
  | .err m => toastError s m

/-- Register mutation (layout.tsx lines 172-181). -/
def runRegisterMutation (remote : RemoteResult AuthResponse) (s : ClientState) : ClientState :=
  match remote with
  | .ok _ =>
      let s1 := toastSuccess s "Registration successful. Please check your email to verify your account."
      push s1 loginPath
  | .err m => toastError s (jsOrStr m "Registration failed")

/-- Catch condition of the logout mutationFn (layout.tsx lines 191-194):
a 401 or session-related error message. -/
def isSessionErrorMsg (m : String) : Bool :=
  jsIncludes m "401" || jsIncludes m "Session" || jsIncludes m "session"

/-- mutationFn of the logout mutation (layout.tsx lines 185-199): a
session-already-invalid error is converted into success; any other error
is rethrown. -/
def logoutMutationFn (remote : RemoteResult Unit) : RemoteResult LogoutResult :=
  match remote with
  | .ok _ => .ok ⟨true⟩
  | .err m => if isSessionErrorMsg m then .ok ⟨true⟩ else .err m

/-- Logout mutation end to end (layout.tsx lines 184-216): on success the
whole cache is cleared, the session entry set to null, navigation goes to
the login path and a success toast is shown; on error the same clearing
and navigation happen but the toast is the degraded error message. -/
def runLogoutMutation (remote : RemoteResult Unit) (s : ClientState) : ClientState :=
  match logoutMutationFn remote with
  | .ok _ =>
      let s1 := clearCache s
      let s2 := setQueryData s1 sessionKey .jsNull
      let s3 := push s2 loginPath
      toastSuccess s3 "Logged out successfully"
  | .err _ =>
      let s1 := clearCache s
      let s2 := setQueryData s1 sessionKey .jsNull
      let s3 := push s2 loginPath
      toastError s3 "Logged out locally, but server logout failed"

/-- Register-with-clinic mutation (layout.tsx lines 219-235). -/
def runRegisterWithClinicMutation (dash : Role → String)
    (remote : RemoteResult AuthResponse) (s : ClientState) : ClientState :=
  match remote with
  | .ok d =>
      let s1 := invalidateQueries s sessionKey
      let s2 :=
        match d.user with
        | some u => push s1 (dash u.role)
        | none =>
            if jsTruthy d.redirectUrl then push s1 (d.redirectUrl.getD "")
            else push s1 "/auth/login?registered=true"
      toastSuccess s2 "Registration successful"
  | .err m => toastError s m

/-- OTP verification mutation (layout.tsx lines 238-249). -/
def runVerifyOTPMutation (dash : Role → String) (remote : RemoteResult AuthResponse)
    (s : ClientState) : ClientState :=
  match remote with
  | .ok d =>
      let s1 := invalidateQueries s sessionKey
      let s2 := push s1 (getRedirectPath dash (d.user.map fun u => some u.role) d.redirectUrl)
      toastSuccess s2 "OTP verified successfully! Welcome back!"
  | .err m => toastError s m

/-- Request-OTP mutation (layout.tsx lines 252-263): on success the server
message is toasted and the session query invalidated. -/
def runRequestOTPMutation (remote : RemoteResult OTPRequestResult)
    (s : ClientState) : ClientState :=
  match remote with
  | .ok d =>
      let s1 := toastSuccess s d.message
      invalidateQueries s1 sessionKey
  | .err m => toastError s m

/-- Forgot-password mutation (layout.tsx lines 266-274). -/
def runForgotPasswordMutation (remote : RemoteResult AuthResponse)
    (s : ClientState) : ClientState :=
  match remote with
  | .ok d => toastSuccess s (jsOrOpt d.message "Password reset instructions sent to your email")
  | .err m => toastError s m

/-- Reset-password mutation (layout.tsx lines 276-285). -/
def runResetPasswordMutation (remote : RemoteResult AuthResponse)
    (s : ClientState) : ClientState :=
  match remote with
  | .ok d =>
      let s1 := push s "/auth/login?reset=true"
      toastSuccess s1 (jsOrOpt d.message "Password reset successful")
  | .err m => toastError s m

/-- Social login mutation (layout.tsx lines 288-299). -/
def runSocialLoginMutation (dash : Role → String) (remote : RemoteResult AuthResponse)
    (s : ClientState) : ClientState :=
  match remote with
  | .ok d =>
      let s1 := invalidateQueries s sessionKey
      let s2 := push s1 (getRedirectPath dash (d.user.map fun u => some u.role) d.redirectUrl)
      toastSuccess s2 "Logged in successfully"
  | .err m => toastError s m

/-- Request-magic-link mutation (layout.tsx lines 302-310). -/
def runRequestMagicLinkMutation (remote : RemoteResult AuthResponse)
    (s : ClientState) : ClientState :=
  match remote with
  | .ok d => toastSuccess s (jsOrOpt d.message "Magic link sent to your email")
  | .err m => toastError s m

/-- Verify-magic-link mutation (layout.tsx lines 312-323). -/
def runVerifyMagicLinkMutation (dash : Role → String) (remote : RemoteResult AuthResponse)
    (s : ClientState) : ClientState :=
  match remote with
  | .ok d =>
      let s1 := invalidateQueries s sessionKey
      let s2 := push s1 (getRedirectPath dash (d.user.map fun u => some u.role) d.redirectUrl)
      toastSuccess s2 "Logged in successfully"
  | .err m => toastError s m

/-- Change-password mutation (layout.tsx lines 326-335). -/
def runChangePasswordMutation (remote : RemoteResult AuthResponse)
    (s : ClientState) : ClientState :=
  match remote with
  | .ok _ =>
      let s1 := invalidateQueries s sessionKey
      toastSuccess s1 "Password changed successfully"
  | .err m => toastError s m

/-- Terminate-all-sessions mutation (layout.tsx lines 338-349): clearing
happens only in onSuccess; onError only toasts. -/
def runTerminateAllSessionsMutation (remote : RemoteResult Unit)
    (s : ClientState) : ClientState :=
  match remote with
  | .ok _ =>
      let s1 := clearCache s
      let s2 := setQueryData s1 sessionKey .jsNull
      let s3 := push s2 loginPath
      toastSuccess s3 "All sessions terminated successfully"
  | .err m => toastError s (jsOrStr m "Failed to terminate all sessions")

/-- Check-OTP-status mutation (layout.tsx lines 352-357): no onSuccess. -/
def runCheckOTPStatusMutation (remote : RemoteResult OTPStatusResult)
    (s : ClientState) : ClientState :=
  match remote with
  | .ok _ => s
  | .err m => toastError s m

/-- Invalidate-OTP mutation (layout.tsx lines 360-368). -/
def runInvalidateOTPMutation (remote : RemoteResult MessageResult)
    (s : ClientState) : ClientState :=
  match remote with
  | .ok d => toastSuccess s d.message
  | .err m => toastError s m

/-- Verify-email mutation (layout.tsx lines 371-381). -/
def runVerifyEmailMutation (remote : RemoteResult MessageResult)
    (s : ClientState) : ClientState :=
  match remote with
  | .ok d =>
      let s1 := invalidateQueries s sessionKey
      let s2 := toastSuccess s1 d.message
      push s2 loginPath
  | .err m => toastError s m

/-- Facebook login mutation (layout.tsx lines 384-395). -/
def runFacebookLoginMutation (dash : Role → String) (remote : RemoteResult AuthResponse)
    (s : ClientState) : ClientState :=
  match remote with
  | .ok d =>
      let s1 := invalidateQueries s sessionKey
      let s2 := push s1 (getRedirectPath dash (d.user.map fun u => some u.role) d.redirectUrl)
      toastSuccess s2 "Logged in with Facebook successfully"
  | .err m => toastError s m

/-- Apple login mutation (layout.tsx lines 397-402): a stub resolving
trivially, with no success or error handler. -/
def runAppleLoginMutation (_token : String) (s : ClientState) : ClientState :=
  s

/-- Concrete initial client state used by witnesses: a cache holding an
unrelated profile entry and a fresh session entry, no navigation, no
toasts yet. -/
def sampleState : ClientState :=
  ⟨[("profile", ⟨.other "profileData", false⟩), (sessionKey, ⟨.jsNull, false⟩)], [], []⟩

/-- Membership in a one-element conditional list. -/
theorem mem_ite_singleton {c : Prop} [Decidable c] {x y : Issue} :
    (y ∈ if c then [x] else ([] : List Issue)) ↔ (c ∧ y = x) := by
  split <;> simp_all

/-- Membership in a one-element conditional list, else-branch form. -/
theorem mem_ite_singleton_neg {c : Prop} [Decidable c] {x y : Issue} :
    (y ∈ if c then ([] : List Issue) else [x]) ↔ (¬c ∧ y = x) := by
  split <;> simp_all

/-- Emptiness of a one-element conditional list. -/
theorem ite_singleton_eq_nil {c : Prop} [Decidable c] {x : Issue} :
    ((if c then [x] else ([] : List Issue)) = []) ↔ ¬c := by
  split <;> simp_all

/-- Emptiness of a one-element conditional list, else-branch form. -/
theorem ite_singleton_neg_eq_nil {c : Prop} [Decidable c] {x : Issue} :
    ((if c then ([] : List Issue) else [x]) = []) ↔ c := by
  split <;> simp_all

/-- Claim C2 (amended): the redirect resolver returns an explicit redirect
unchanged when it is provided, non-empty, and free of the substring
"/auth/"; otherwise it falls through to the role dashboard when a role is
present and to the login path when not; and the four concrete instances of
the spec hold. -/
theorem c2_redirect_resolver (dash : Role → String) (user : Option (Option Role))
    (url : String) :
    (url ≠ "" → jsIncludes url "/auth/" = false →
      getRedirectPath dash user (some url) = url) ∧
    (∀ r, user = some (some r) → getRedirectPath dash user none = dash r) ∧
    (user = none ∨ user = some none → getRedirectPath dash user none = loginPath) ∧
    getRedirectPath dash none (some "/dashboard/x") = "/dashboard/x" ∧
    getRedirectPath dash none (some "/auth/callback") = roleOrLogin dash none ∧
    getRedirectPath dash (some (some .DOCTOR)) none = dash .DOCTOR ∧
    getRedirectPath dash (some none) none = loginPath := by
  refine ⟨?_, ?_, ?_, rfl, rfl, rfl, rfl⟩
  · intro h1 h2
    simp [getRedirectPath, h1, h2]
  · intro r hr
    subst hr
    rfl
  · rintro (h | h) <;> subst h <;> rfl

/-- Witness for C2: the amended theorem applied at concrete inputs with
the hypotheses discharged by computation. -/
theorem c2_redirect_resolver_witness :
    getRedirectPath sampleDash none (some "/dashboard/x") = "/dashboard/x" ∧
    getRedirectPath sampleDash (some (some .DOCTOR)) none = sampleDash .DOCTOR ∧
    getRedirectPath sampleDash none (some "/home") = "/home" :=
  ⟨(c2_redirect_resolver sampleDash none "/dashboard/x").2.2.2.1,
   (c2_redirect_resolver sampleDash (some (some .DOCTOR)) "x").2.1 .DOCTOR rfl,
   (c2_redirect_resolver sampleDash none "/home").1 (by decide) (by decide)⟩

/-- Counterexample for C2 as stated: the empty string is a provided
explicit redirect that does not target the authentication section, yet the
resolver does not return it unchanged — it falls through to the login
path, because JavaScript treats the empty string as falsy. -/
theorem c2_redirect_resolver_counterexample :
    getRedirectPath sampleDash none (some "") = "/auth/login" ∧
    jsIncludes "" "/auth/" = false ∧ ("/auth/login" : String) ≠ "" := by
  refine ⟨rfl, by decide, by decide⟩

/-- Claim C10: whenever the substring "/auth/" occurs anywhere in the
explicit redirect, the resolver ignores it and falls through to the
role-dashboard-or-login branch, even when the path does not start with the
authentication section. -/
theorem c10_auth_substring_fallthrough (dash : Role → String)
    (user : Option (Option Role)) (url : String)
    (h : jsIncludes url "/auth/" = true) :
    getRedirectPath dash user (some url) = roleOrLogin dash user := by
  simp [getRedirectPath, h]

/-- Witness for C10: "/dashboard/auth/x" contains "/auth/" without
targeting the authentication section, and is ignored. -/
theorem c10_auth_substring_fallthrough_witness :
    jsIncludes "/dashboard/auth/x" "/auth/" = true ∧
    getRedirectPath sampleDash none (some "/dashboard/auth/x") = "/auth/login" :=
  ⟨by decide,
   (c10_auth_substring_fallthrough sampleDash none "/dashboard/auth/x" (by decide)).trans rfl⟩

/-- Claim C4: the strong-password chain used for the registration password
and the change-password new password accepts a string exactly when all five
conditions hold, and each missing condition is reported with its own
distinct message. -/
theorem c4_strong_password (field s : String) :
    (strongPasswordIssues field s = [] ↔
      (8 ≤ utf16Length s ∧ hasUpper s = true ∧ hasLower s = true ∧
       hasDigit s = true ∧ hasSpecial s = true)) ∧
    ((⟨[field], minLenMsg⟩ : Issue) ∈ strongPasswordIssues field s ↔ utf16Length s < 8) ∧
    ((⟨[field], upperMsg⟩ : Issue) ∈ strongPasswordIssues field s ↔ hasUpper s = false) ∧
    ((⟨[field], lowerMsg⟩ : Issue) ∈ strongPasswordIssues field s ↔ hasLower s = false) ∧
    ((⟨[field], digitMsg⟩ : Issue) ∈ strongPasswordIssues field s ↔ hasDigit s = false) ∧
    ((⟨[field], specialMsg⟩ : Issue) ∈ strongPasswordIssues field s ↔ hasSpecial s = false) ∧
    [minLenMsg, upperMsg, lowerMsg, digitMsg, specialMsg].Nodup := by
  have hd : [minLenMsg, upperMsg, lowerMsg, digitMsg, specialMsg].Nodup := by decide
  refine ⟨?_, ?_, ?_, ?_, ?_, ?_, hd⟩
  · simp [strongPasswordIssues, List.append_eq_nil, ite_singleton_eq_nil,
      ite_singleton_neg_eq_nil, Nat.not_lt]
  all_goals
    simp [strongPasswordIssues, List.mem_append, mem_ite_singleton,
      mem_ite_singleton_neg, Issue.mk.injEq,
      show minLenMsg ≠ upperMsg by decide, show minLenMsg ≠ lowerMsg by decide,
      show minLenMsg ≠ digitMsg by decide, show minLenMsg ≠ specialMsg by decide,
      show upperMsg ≠ minLenMsg by decide, show upperMsg ≠ lowerMsg by decide,
      show upperMsg ≠ digitMsg by decide, show upperMsg ≠ specialMsg by decide,
      show lowerMsg ≠ minLenMsg by decide, show lowerMsg ≠ upperMsg by decide,
      show lowerMsg ≠ digitMsg by decide, show lowerMsg ≠ specialMsg by decide,
      show digitMsg ≠ minLenMsg by decide, show digitMsg ≠ upperMsg by decide,
      show digitMsg ≠ lowerMsg by decide, show digitMsg ≠ specialMsg by decide,
      show specialMsg ≠ minLenMsg by decide, show specialMsg ≠ upperMsg by decide,
      show specialMsg ≠ lowerMsg by decide, show specialMsg ≠ digitMsg by decide]

/-- Witness for C4: the password "Abcdef1!" satisfies all five conditions
and is accepted; "abcdef1!" lacks an uppercase letter and receives exactly
the uppercase message. -/
theorem c4_strong_password_witness :
    strongPasswordIssues "password" "Abcdef1!" = [] ∧
    ((⟨["password"], upperMsg⟩ : Issue) ∈ strongPasswordIssues "password" "abcdef1!") :=
  ⟨((c4_strong_password "password" "Abcdef1!").1).mpr (by decide),
   ((c4_strong_password "password" "abcdef1!").2.2.1).mpr (by decide)⟩

/-- Decomposition of an empty register base-issue list into the individual
field conditions. -/
theorem registerBase_nil (emailOk : String → Bool) (i : RegisterInput)
    (h : registerBaseIssues emailOk i = []) :
    emailOk i.email = true ∧ strongPasswordIssues "password" i.password = [] ∧
    ¬ utf16Length i.firstName < 2 ∧ ¬ utf16Length i.lastName < 2 ∧
    ¬ utf16Length i.phone < 10 ∧
    (∀ g, i.gender = some g → g ∈ genderValues) ∧
    (∀ rv, i.role = some rv → rv ∈ roleValues) ∧
    i.terms = some true := by
  rcases hg : i.gender with _ | g <;> rcases hr : i.role with _ | rv <;>
    rcases ht : i.terms with _ | b <;>
    simp [registerBaseIssues, hg, hr, ht, List.append_eq_nil, ite_singleton_eq_nil,
      ite_singleton_neg_eq_nil] at h <;>
    simp_all

/-- Sample email acceptor used only to instantiate witnesses; the claim
theorems hold for every email grammar. -/
def sampleEmailOk (s : String) : Bool := jsIncludes s "@"

/-- Claim C8: whenever the password (or new password) differs from its
confirmation, each of the three schemas rejects; and when the rest of the
input is valid the sole reported issue is the mismatch message attached to
the `confirmPassword` field, regardless of which of the two fields was
altered. -/
theorem c8_confirm_password_mismatch (emailOk : String → Bool)
    (r : RegisterInput) (rp : ResetPasswordInput) (cp : ChangePasswordInput)
    (h1 : r.password ≠ r.confirmPassword)
    (h2 : rp.password ≠ rp.confirmPassword)
    (h3 : cp.newPassword ≠ cp.confirmPassword) :
    rejects (registerSafeParse emailOk r) = true ∧
    rejects (resetPasswordSafeParse rp) = true ∧
    rejects (changePasswordSafeParse cp) = true ∧
    (registerBaseIssues emailOk r = [] →
      registerSafeParse emailOk r = .error [mismatchIssue]) ∧
    (resetPasswordBaseIssues rp = [] →
      resetPasswordSafeParse rp = .error [mismatchIssue]) ∧
    (changePasswordBaseIssues cp = [] →
      changePasswordSafeParse cp = .error [mismatchIssue]) ∧
    mismatchIssue.path = ["confirmPassword"] := by
  refine ⟨?_, ?_, ?_, ?_, ?_, ?_, rfl⟩
  · by_cases hb : registerBaseIssues emailOk r = [] <;>
      simp [registerSafeParse, hb, h1, rejects]
  · by_cases hb : resetPasswordBaseIssues rp = [] <;>
      simp [resetPasswordSafeParse, hb, h2, rejects]
  · by_cases hb : changePasswordBaseIssues cp = [] <;>
      simp [changePasswordSafeParse, hb, h3, rejects]
  · intro hb; simp [registerSafeParse, hb, h1]
  · intro hb; simp [resetPasswordSafeParse, hb, h2]
  · intro hb; simp [changePasswordSafeParse, hb, h3]

/-- Witness for C8: concrete mismatched inputs, otherwise valid, are
rejected with exactly the mismatch issue at `confirmPassword`. -/
theorem c8_confirm_password_mismatch_witness :
    rejects (registerSafeParse sampleEmailOk
      ⟨"a@b.com", "Abcdef1!", "Abcdef2!", "Jo", "Do", "1234567890",
       none, none, none, some true⟩) = true ∧
    resetPasswordSafeParse ⟨"longenough", "different", "tok"⟩ = .error [mismatchIssue] ∧
    changePasswordSafeParse ⟨"old", "Abcdef1!", "Abcdef2!"⟩ = .error [mismatchIssue] :=
  ⟨(c8_confirm_password_mismatch sampleEmailOk
      ⟨"a@b.com", "Abcdef1!", "Abcdef2!", "Jo", "Do", "1234567890",
       none, none, none, some true⟩
      ⟨"longenough", "different", "tok"⟩ ⟨"old", "Abcdef1!", "Abcdef2!"⟩
      (by decide) (by decide) (by decide)).1,
   (c8_confirm_password_mismatch sampleEmailOk
      ⟨"a@b.com", "Abcdef1!", "Abcdef2!", "Jo", "Do", "1234567890",
       none, none, none, some true⟩
      ⟨"longenough", "different", "tok"⟩ ⟨"old", "Abcdef1!", "Abcdef2!"⟩
      (by decide) (by decide) (by decide)).2.2.2.2.1 (by decide),
   (c8_confirm_password_mismatch sampleEmailOk
      ⟨"a@b.com", "Abcdef1!", "Abcdef2!", "Jo", "Do", "1234567890",
       none, none, none, some true⟩
      ⟨"longenough", "different", "tok"⟩ ⟨"old", "Abcdef1!", "Abcdef2!"⟩
      (by decide) (by decide) (by decide)).2.2.2.2.2.1 (by decide)⟩

/-- Claim C9: the registration schema rejects whenever `terms` is not
explicitly true, rejects out-of-set `gender` and `role` values, enforces
the minimum lengths on first name, last name and phone, and on success
fills the defaults MALE, PATIENT and 18 for omitted fields, keeping
`gender` and `role` inside their closed sets. -/
theorem c9_register_schema (emailOk : String → Bool) (i : RegisterInput) :
    (i.terms ≠ some true → rejects (registerSafeParse emailOk i) = true) ∧
    (∀ g, i.gender = some g → g ∉ genderValues →
      rejects (registerSafeParse emailOk i) = true) ∧
    (∀ rv, i.role = some rv → rv ∉ roleValues →
      rejects (registerSafeParse emailOk i) = true) ∧
    (utf16Length i.firstName < 2 → rejects (registerSafeParse emailOk i) = true) ∧
    (utf16Length i.lastName < 2 → rejects (registerSafeParse emailOk i) = true) ∧
    (utf16Length i.phone < 10 → rejects (registerSafeParse emailOk i) = true) ∧
    (∀ o, registerSafeParse emailOk i = .ok o →
      (i.gender = none → o.gender = "MALE") ∧
      (i.role = none → o.role = "PATIENT") ∧
      (i.age = none → o.age = 18) ∧
      o.gender ∈ genderValues ∧ o.role ∈ roleValues ∧ o.terms = true) := by
  refine ⟨?_, ?_, ?_, ?_, ?_, ?_, ?_⟩
  · intro ht
    by_cases hb : registerBaseIssues emailOk i = []
    · exact absurd (registerBase_nil emailOk i hb).2.2.2.2.2.2.2 ht
    · simp [registerSafeParse, hb, rejects]
  · intro g hg hgv
    by_cases hb : registerBaseIssues emailOk i = []
    · exact absurd ((registerBase_nil emailOk i hb).2.2.2.2.2.1 g hg) hgv
    · simp [registerSafeParse, hb, rejects]
  · intro rv hr hrv
    by_cases hb : registerBaseIssues emailOk i = []
    · exact absurd ((registerBase_nil emailOk i hb).2.2.2.2.2.2.1 rv hr) hrv
    · simp [registerSafeParse, hb, rejects]
  · intro hf
    by_cases hb : registerBaseIssues emailOk i = []
    · exact absurd hf (registerBase_nil emailOk i hb).2.2.1
    · simp [registerSafeParse, hb, rejects]
  · intro hl
    by_cases hb : registerBaseIssues emailOk i = []
    · exact absurd hl (registerBase_nil emailOk i hb).2.2.2.1
    · simp [registerSafeParse, hb, rejects]
  · intro hp
    by_cases hb : registerBaseIssues emailOk i = []
    · exact absurd hp (registerBase_nil emailOk i hb).2.2.2.2.1
    · simp [registerSafeParse, hb, rejects]
  · intro o ho
    by_cases hb : registerBaseIssues emailOk i = []
    · have hparts := registerBase_nil emailOk i hb
      by_cases hpw : i.password = i.confirmPassword
      · simp [registerSafeParse, hb, hpw] at ho
        subst ho
        refine ⟨fun hgn => by simp [hgn], fun hrn => by simp [hrn, Role.toStr],
          fun han => by simp [han], ?_, ?_, ?_⟩
        · rcases hg : i.gender with _ | g
          · simp [genderValues]
          · simpa [hg] using hparts.2.2.2.2.2.1 g hg
        · rcases hr : i.role with _ | rv
          · simp [roleValues, Role.toStr]
          · simpa [hr] using hparts.2.2.2.2.2.2.1 rv hr
        · simp [hparts.2.2.2.2.2.2.2]
      · simp [registerSafeParse, hb, hpw] at ho
    · simp [registerSafeParse, hb] at ho

/-- Witness for C9: a fully valid registration with omitted gender, role
and age parses to the defaults, and flipping `terms` to false rejects. -/
theorem c9_register_schema_witness :
    (registerSafeParse sampleEmailOk
      ⟨"a@b.com", "Abcdef1!", "Abcdef1!", "Jo", "Do", "1234567890",
       none, none, none, some true⟩ ).toOption.map RegisterOutput.gender = some "MALE" ∧
    rejects (registerSafeParse sampleEmailOk
      ⟨"a@b.com", "Abcdef1!", "Abcdef1!", "Jo", "Do", "1234567890",
       none, none, none, some false⟩) = true := by
  have hok : registerSafeParse sampleEmailOk
      ⟨"a@b.com", "Abcdef1!", "Abcdef1!", "Jo", "Do", "1234567890",
       none, none, none, some true⟩ =
      .ok ⟨"a@b.com", "Abcdef1!", "Abcdef1!", "Jo", "Do", "1234567890",
       "MALE", "PATIENT", 18, true⟩ := by rfl
  have hdef := (c9_register_schema sampleEmailOk
      ⟨"a@b.com", "Abcdef1!", "Abcdef1!", "Jo", "Do", "1234567890",
       none, none, none, some true⟩).2.2.2.2.2.2 _ hok
  have hrej := (c9_register_schema sampleEmailOk
      ⟨"a@b.com", "Abcdef1!", "Abcdef1!", "Jo", "Do", "1234567890",
       none, none, none, some false⟩).1 (by decide)
  exact ⟨by rw [hok]; exact congrArg some (hdef.1 rfl), hrej⟩

/-- Writing a key makes it readable with the written entry. -/
theorem lookupEntry_setEntry_self (c : List (String × CacheEntry)) (k : String)
    (v : CacheEntry) : lookupEntry (setEntry c k v) k = some v := by
  induction c with
  | nil => simp [setEntry, lookupEntry]
  | cons e rest ih =>
      by_cases h : e.1 = k <;> simp [setEntry, lookupEntry, h, ih]

/-- Writing a key leaves every other key unchanged. -/
theorem lookupEntry_setEntry_ne (c : List (String × CacheEntry)) (k k' : String)
    (v : CacheEntry) (h : k' ≠ k) :
    lookupEntry (setEntry c k v) k' = lookupEntry c k' := by
  induction c with
  | nil => simp [setEntry, lookupEntry, Ne.symm h]
  | cons e rest ih =>
      by_cases he : e.1 = k
      · subst he
        simp [setEntry, lookupEntry, h, Ne.symm h]
      · by_cases he' : e.1 = k' <;> simp [setEntry, lookupEntry, he, he', h, ih]

/-- Claim C1: a logout whose remote error message contains "401",
"Session" or "session" is treated as success — the whole cache is cleared,
the session entry is set to absent, navigation goes to the login path and
the success toast is shown; any other remote error still clears the cache,
sets the session absent and navigates to login, but shows the degraded
error toast. -/
theorem c1_logout_error_handling (s : ClientState) (m : String) :
    (isSessionErrorMsg m = true →
      runLogoutMutation (.err m) s =
        ⟨[(sessionKey, ⟨.jsNull, false⟩)], s.nav ++ [loginPath],
         s.toasts ++ [⟨.success, "Logged out successfully"⟩]⟩) ∧
    (isSessionErrorMsg m = false →
      runLogoutMutation (.err m) s =
        ⟨[(sessionKey, ⟨.jsNull, false⟩)], s.nav ++ [loginPath],
         s.toasts ++ [⟨.error, "Logged out locally, but server logout failed"⟩]⟩) := by
  constructor <;> intro h <;>
    simp [runLogoutMutation, logoutMutationFn, h, clearCache, setQueryData,
      setEntry, push, toastSuccess, toastError]

/-- Witness for C1: a "Session expired" remote failure is reported as a
successful logout, a "network down" one as the degraded logout; both end
with the cleared cache and login navigation. -/
theorem c1_logout_error_handling_witness :
    runLogoutMutation (.err "Session expired") sampleState =
      ⟨[(sessionKey, ⟨.jsNull, false⟩)], ["/auth/login"],
       [⟨.success, "Logged out successfully"⟩]⟩ ∧
    runLogoutMutation (.err "network down") sampleState =
      ⟨[(sessionKey, ⟨.jsNull, false⟩)], ["/auth/login"],
       [⟨.error, "Logged out locally, but server logout failed"⟩]⟩ :=
  ⟨(c1_logout_error_handling sampleState "Session expired").1 (by decide),
   (c1_logout_error_handling sampleState "network down").2 (by decide)⟩

/-- Claim C3: a successful login whose response carries a user stores the
normalized response as the session cache entry (leaving other entries
unchanged), navigates to the dashboard configured for the user's role, and
shows the welcome toast, which contains the user's first name whenever one
is present; the normalization fills each missing optional profile field
with its empty or absent default. -/
theorem c3_login_success (dash : Role → String) (s : ClientState)
    (r : AuthResponse) (u : RawUser) (h : r.user = some u) :
    lookupEntry (runLoginMutation dash (.ok r) s).cache sessionKey =
      some ⟨.loginData ⟨normalizeUser u, r.token, r.redirectUrl, r.message⟩, false⟩ ∧
    (∀ k, k ≠ sessionKey →
      lookupEntry (runLoginMutation dash (.ok r) s).cache k = lookupEntry s.cache k) ∧
    (runLoginMutation dash (.ok r) s).nav = s.nav ++ [dash u.role] ∧
    (runLoginMutation dash (.ok r) s).toasts =
      s.toasts ++ [⟨.success, welcomeBackMsg (normalizeUser u).firstName⟩] ∧
    (∀ fn, u.firstName = some fn → fn ≠ "" →
      jsIncludes (welcomeBackMsg (normalizeUser u).firstName) fn = true) ∧
    (u.firstName = none → (normalizeUser u).firstName = "") ∧
    (u.lastName = none → (normalizeUser u).lastName = "") ∧
    (u.phone = none → (normalizeUser u).phone = "") ∧
    (u.gender = none → (normalizeUser u).gender = "") ∧
    (u.address = none → (normalizeUser u).address = "") ∧
    (u.dateOfBirth = none → (normalizeUser u).dateOfBirth = none) := by
  refine ⟨?_, ?_, ?_, ?_, ?_, ?_, ?_, ?_, ?_, ?_, ?_⟩
  · simp [runLoginMutation, loginMutationFn, h, setQueryData, push, toastSuccess,
      lookupEntry_setEntry_self]
  · intro k hk
    simp [runLoginMutation, loginMutationFn, h, setQueryData, push, toastSuccess,
      lookupEntry_setEntry_ne _ _ _ _ hk]
  · simp [runLoginMutation, loginMutationFn, h, setQueryData, push, toastSuccess,
      normalizeUser]
  · simp [runLoginMutation, loginMutationFn, h, setQueryData, push, toastSuccess]
  · intro fn hfn hne
    have hval : (normalizeUser u).firstName = fn := by
      simp [normalizeUser, hfn, jsOrOpt, jsOrStr, hne]
    rw [hval]
    have hinf : fn.toList <:+: (welcomeBackMsg fn).toList := by
      simp [welcomeBackMsg, hne, String.toList]
      exact ⟨"Welcome back, ".toList, "!".toList, by simp⟩
    exact decide_eq_true hinf
  all_goals intro hn
  all_goals simp [normalizeUser, hn, jsOrOpt, jsOrNull]

/-- Witness for C3: a success carrying a DOCTOR user with first name "Jo"
ends with the normalized user in the session cache, navigation to the
doctor dashboard and a welcome toast containing "Jo". -/
theorem c3_login_success_witness :
    lookupEntry (runLoginMutation sampleDash
      (.ok ⟨some ⟨"u1", "a@b.com", none, .DOCTOR, some "Jo", none, none, none,
        none, none, none⟩, none, none, none⟩) sampleState).cache sessionKey =
      some ⟨.loginData ⟨⟨"u1", "a@b.com", none, .DOCTOR, "Jo", "", "", none, "", "",
        none⟩, none, none, none⟩, false⟩ ∧
    (runLoginMutation sampleDash
      (.ok ⟨some ⟨"u1", "a@b.com", none, .DOCTOR, some "Jo", none, none, none,
        none, none, none⟩, none, none, none⟩) sampleState).nav =
      [sampleDash .DOCTOR] ∧
    jsIncludes (welcomeBackMsg "Jo") "Jo" = true := by
  have hc := c3_login_success sampleDash sampleState
    ⟨some ⟨"u1", "a@b.com", none, .DOCTOR, some "Jo", none, none, none,
      none, none, none⟩, none, none, none⟩
    ⟨"u1", "a@b.com", none, .DOCTOR, some "Jo", none, none, none, none, none, none⟩
    rfl
  exact ⟨hc.1, hc.2.2.1, hc.2.2.2.2.1 "Jo" rfl (by decide)⟩

/-- Claim C7: a login response without a user object is treated as an
error: the "Invalid user data received" message is surfaced as an error
toast and neither navigation nor any cache write happens. -/
theorem c7_login_missing_user (dash : Role → String) (s : ClientState)
    (r : AuthResponse) (h : r.user = none) :
    runLoginMutation dash (.ok r) s =
      { s with toasts := s.toasts ++ [⟨.error, "Invalid user data received"⟩] } := by
  simp [runLoginMutation, loginMutationFn, h, toastError, jsOrStr]

/-- Witness for C7: a concrete userless success response only toasts. -/
theorem c7_login_missing_user_witness :
    runLoginMutation sampleDash (.ok ⟨none, some "tok", none, none⟩) sampleState =
      { sampleState with
        toasts := sampleState.toasts ++ [⟨.error, "Invalid user data received"⟩] } :=
  c7_login_missing_user sampleDash sampleState ⟨none, some "tok", none, none⟩ rfl

/-- Keys-and-values view of the cache, forgetting staleness. -/
def cacheValues (c : List (String × CacheEntry)) : List (String × CacheValue) :=
  c.map fun e => (e.1, e.2.value)

/-- Invalidation changes no cache key or value, only staleness. -/
theorem cacheValues_invalidate (c : List (String × CacheEntry)) (k : String) :
    cacheValues (c.map fun e => if e.1 = k then (e.1, ⟨e.2.value, true⟩) else e) =
      cacheValues c := by
  induction c with
  | nil => rfl
  | cons e rest ih =>
      by_cases h : e.1 = k <;> simp [cacheValues, h] <;>
        simpa [cacheValues] using ih

/-- Claim C5 (amended): successful forgotPassword and requestMagicLink show
the server-provided message (falling back to a default when it is absent or
empty) and change nothing else — no navigation, no session-cache mutation;
successful requestOTP also shows the server message and does not navigate
and writes no cache data, but it does invalidate the session query. -/
theorem c5_request_flows (s : ClientState) (d : AuthResponse)
    (otp : OTPRequestResult) :
    runForgotPasswordMutation (.ok d) s =
      { s with toasts := s.toasts ++
        [⟨.success, jsOrOpt d.message "Password reset instructions sent to your email"⟩] } ∧
    runRequestMagicLinkMutation (.ok d) s =
      { s with toasts := s.toasts ++
        [⟨.success, jsOrOpt d.message "Magic link sent to your email"⟩] } ∧
    (∀ m, d.message = some m → m ≠ "" →
      jsOrOpt d.message "Password reset instructions sent to your email" = m ∧
      jsOrOpt d.message "Magic link sent to your email" = m) ∧
    (runRequestOTPMutation (.ok otp) s).nav = s.nav ∧
    (runRequestOTPMutation (.ok otp) s).toasts = s.toasts ++ [⟨.success, otp.message⟩] ∧
    cacheValues (runRequestOTPMutation (.ok otp) s).cache = cacheValues s.cache := by
  refine ⟨rfl, rfl, ?_, rfl, rfl, ?_⟩
  · intro m hm hne
    simp [jsOrOpt, jsOrStr, hm, hne]
  · simpa [runRequestOTPMutation, invalidateQueries, toastSuccess] using
      cacheValues_invalidate s.cache sessionKey

/-- Witness for C5: a concrete requestOTP success keeps every cache value
while showing the message, and a forgotPassword success with a nonempty
server message shows exactly that message. -/
theorem c5_request_flows_witness :
    cacheValues (runRequestOTPMutation (.ok ⟨true, "OTP sent"⟩) sampleState).cache =
      cacheValues sampleState.cache ∧
    jsOrOpt (some "Reset mail sent") "Password reset instructions sent to your email" =
      "Reset mail sent" :=
  ⟨(c5_request_flows sampleState ⟨none, none, none, some "Reset mail sent"⟩
      ⟨true, "OTP sent"⟩).2.2.2.2.2,
   ((c5_request_flows sampleState ⟨none, none, none, some "Reset mail sent"⟩
      ⟨true, "OTP sent"⟩).2.2.1 "Reset mail sent" rfl (by decide)).1⟩

/-- Counterexample for C5 as stated: a successful requestOTP invalidates
the cached session query (its stale flag flips), so the session cache is
not left untouched. -/
theorem c5_request_flows_counterexample :
    lookupEntry (runRequestOTPMutation (.ok ⟨true, "OTP sent"⟩) sampleState).cache
      sessionKey = some ⟨.jsNull, true⟩ ∧
    lookupEntry sampleState.cache sessionKey = some ⟨.jsNull, false⟩ := by
  decide

/-- Claim C6 (amended): every operation that fails ends with exactly one
error toast appended and no other client-state change — except logout,
which even on a genuine server failure clears the cache, sets the session
absent and navigates to login. In particular terminateAllSessions does NOT
clear the cache on failure; it clears only on success. -/
theorem c6_failure_frame (dash : Role → String) (s : ClientState) (m tok : String) :
    runLoginMutation dash (.err m) s =
      { s with toasts := s.toasts ++ [⟨.error, jsOrStr m "Login failed"⟩] } ∧
    runGoogleLoginMutation dash (.err m) s =
      { s with toasts := s.toasts ++ [⟨.error, m⟩] } ∧
    runRegisterMutation (.err m) s =
      { s with toasts := s.toasts ++ [⟨.error, jsOrStr m "Registration failed"⟩] } ∧
    runRegisterWithClinicMutation dash (.err m) s =
      { s with toasts := s.toasts ++ [⟨.error, m⟩] } ∧
    runVerifyOTPMutation dash (.err m) s =
      { s with toasts := s.toasts ++ [⟨.error, m⟩] } ∧
    runRequestOTPMutation (.err m) s =
      { s with toasts := s.toasts ++ [⟨.error, m⟩] } ∧
    runForgotPasswordMutation (.err m) s =
      { s with toasts := s.toasts ++ [⟨.error, m⟩] } ∧
    runResetPasswordMutation (.err m) s =
      { s with toasts := s.toasts ++ [⟨.error, m⟩] } ∧
    runSocialLoginMutation dash (.err m) s =
      { s with toasts := s.toasts ++ [⟨.error, m⟩] } ∧
    runRequestMagicLinkMutation (.err m) s =
      { s with toasts := s.toasts ++ [⟨.error, m⟩] } ∧
    runVerifyMagicLinkMutation dash (.err m) s =
      { s with toasts := s.toasts ++ [⟨.error, m⟩] } ∧
    runChangePasswordMutation (.err m) s =
      { s with toasts := s.toasts ++ [⟨.error, m⟩] } ∧
    runCheckOTPStatusMutation (.err m) s =
      { s with toasts := s.toasts ++ [⟨.error, m⟩] } ∧
    runInvalidateOTPMutation (.err m) s =
      { s with toasts := s.toasts ++ [⟨.error, m⟩] } ∧
    runVerifyEmailMutation (.err m) s =
      { s with toasts := s.toasts ++ [⟨.error, m⟩] } ∧
    runFacebookLoginMutation dash (.err m) s =
      { s with toasts := s.toasts ++ [⟨.error, m⟩] } ∧
    runAppleLoginMutation tok s = s ∧
    runTerminateAllSessionsMutation (.err m) s =
      { s with toasts := s.toasts ++ [⟨.error, jsOrStr m "Failed to terminate all sessions"⟩] } ∧
    (isSessionErrorMsg m = false →
      runLogoutMutation (.err m) s =
        ⟨[(sessionKey, ⟨.jsNull, false⟩)], s.nav ++ [loginPath],
         s.toasts ++ [⟨.error, "Logged out locally, but server logout failed"⟩]⟩) := by
  refine ⟨rfl, rfl, rfl, rfl, rfl, rfl, rfl, rfl, rfl, rfl, rfl, rfl, rfl, rfl,
    rfl, rfl, rfl, rfl, ?_⟩
  intro h
  simp [runLogoutMutation, logoutMutationFn, h, clearCache, setQueryData, setEntry,
    push, toastSuccess, toastError]

/-- Witness for C6: the amended theorem applied at concrete inputs, with
the logout hypothesis (a non-session error message) discharged. -/
theorem c6_failure_frame_witness :
    runTerminateAllSessionsMutation (.err "boom") sampleState =
      { sampleState with toasts := sampleState.toasts ++
        [⟨.error, jsOrStr "boom" "Failed to terminate all sessions"⟩] } ∧
    runLogoutMutation (.err "boom") sampleState =
      ⟨[(sessionKey, ⟨.jsNull, false⟩)], sampleState.nav ++ [loginPath],
       sampleState.toasts ++
         [⟨.error, "Logged out locally, but server logout failed"⟩]⟩ :=
  ⟨(c6_failure_frame sampleDash sampleState "boom" "t").2.2.2.2.2.2.2.2.2.2.2.2.2.2.2.2.2.1,
   (c6_failure_frame sampleDash sampleState "boom" "t").2.2.2.2.2.2.2.2.2.2.2.2.2.2.2.2.2.2
     (by decide)⟩

/-- Counterexample for C6 as stated: terminateAllSessions does not clear
the client cache when the server call fails — the cache is unchanged and
nonempty, only an error toast is added. -/
theorem c6_failure_frame_counterexample :
    (runTerminateAllSessionsMutation (.err "boom") sampleState).cache =
      sampleState.cache ∧
    sampleState.cache ≠ [] ∧
    (runTerminateAllSessionsMutation (.err "boom") sampleState).toasts =
      [⟨.error, "boom"⟩] := by
  decide

end HealthAuth
